import Mathlib

/-!
Verification model of the stream connection router in
`alpaca_trade_api/stream2.py`.

The module is embedded shallowly:

* JSON payloads become the inductive type `Json`.
* The mutable fields of `StreamConn` (`_ws`, `_data_ws`, `polygon`) become
  the record `RouterState`; socket objects are identified by the natural
  number handed out by a fresh-id counter, so two sockets returned by
  distinct transport connects are distinct values, exactly as two Python
  socket objects are distinct.
* Network and feed-client effects become an explicit trace of `Op` values;
  fallible steps return `Except Err` together with the post state and the
  trace emitted up to the failure, mirroring how a Python exception leaves
  already-performed mutations and already-sent frames in place.
* The authenticate response that `ws.recv()` yields during the handshake is
  supplied by an environment `Env`, one JSON value per socket id.
-/

/-- Decoded JSON values, as produced by `json.loads`. -/
inductive Json where
  | null : Json
  | bool (b : Bool) : Json
  | num (n : Int) : Json
  | str (s : String) : Json
  | arr (xs : List Json) : Json
  | obj (fields : List (String × Json)) : Json

namespace Json

/-- Python `k in msg` for a decoded JSON object (the only shape the router
receives dictionaries in); non-objects contain no keys. -/
def member (j : Json) (k : String) : Bool :=
  match j with
  | .obj fields => (fields.lookup k).isSome
  | _ => false

end Json

/-- Python exceptions that the modelled code can raise. -/
inductive Err where
  /-- The `ValueError` raised by `_connect` on a failed authentication;
  carries the decoded raw response. -/
  | authError (raw : Json) : Err
  /-- Python `KeyError` from a dictionary subscript on a missing key. -/
  | keyError (key : String) : Err
  /-- Python `TypeError` from subscripting a non-dictionary value. -/
  | typeError : Err
  /-- Python `AttributeError` from calling a method on `None`. -/
  | attributeError : Err

namespace Json

/-- Python dictionary subscript `j[k]`: raises `KeyError` when the key is
absent and `TypeError` when `j` is not a dictionary. -/
def getKey (j : Json) (k : String) : Except Err Json :=
  match j with
  | .obj fields =>
      match fields.lookup k with
      | some v => Except.ok v
      | none => Except.error (Err.keyError k)
  | _ => Except.error Err.typeError

end Json

/-- The three connection classes behind the router (events socket, data
socket, low-latency feed). -/
inductive ConnClass where
  | events : ConnClass
  | data : ConnClass
  | feed : ConnClass
deriving DecidableEq, Repr

/-- Static configuration resolved in `StreamConn.__init__`: credentials and
the two socket endpoints (`base_url + "/stream"`, `data_url + "/stream"`). -/
structure Config where
  keyId : String
  secretKey : String
  baseUrl : String
  endpoint : String
  dataEndpoint : String

/-- Environment of the runs: the decoded authenticate response that
`ws.recv()` yields on a given socket during the handshake. -/
structure Env where
  authResponse : Nat → Json

/-- The mutable fields of a `StreamConn` instance.  `ws`, `dataWs` and
`polygon` model `_ws`, `_data_ws` and `polygon`; sockets and feed clients
are identified by ids drawn from the counter `nextId`.  `loops` is the set
of running `_consume_msg` read-loop tasks, each tagged (as bookkeeping that
influences no behaviour) with the class of the ensure call that started the
handshake which spawned it. -/
structure RouterState where
  ws : Option Nat
  dataWs : Option Nat
  polygon : Option Nat
  nextId : Nat
  loops : List (Nat × ConnClass)
deriving DecidableEq, Repr

/-- The state of a freshly constructed `StreamConn`. -/
def initState : RouterState :=
  { ws := none, dataWs := none, polygon := none, nextId := 0, loops := [] }

/-- Externally visible operations, recorded as a trace. -/
inductive Op where
  /-- Transport connect `websockets.connect(endpoint)` returning socket `sock`. -/
  | wsConnect (endpoint : String) (sock : Nat) : Op
  /-- Socket send of a JSON-serialised payload. -/
  | send (sock : Nat) (payload : Json) : Op
  /-- Socket receive awaited during the authentication handshake. -/
  | recv (sock : Nat) : Op
  /-- Handler fan-out performed by the dispatcher for one message. -/
  | dispatchEvent (channel : String) (msg : Json) : Op
  /-- Socket close. -/
  | close (sock : Nat) : Op
  /-- Feed client creation with the environment-adjusted key. -/
  | natsCreate (client : Nat) (key : String) : Op
  /-- Registration of the catch-all feed handler on the client. -/
  | natsRegister (client : Nat) : Op
  /-- Feed client connect. -/
  | natsConnect (client : Nat) : Op
  /-- Feed client subscribe call. -/
  | natsSubscribe (client : Nat) (channels : List String) : Op
  /-- Feed client close. -/
  | natsClose (client : Nat) : Op

/-- Result of running one stateful operation of the router: the Python
return-or-raise outcome, the post state (mutations survive a raise), and
the trace of external operations performed before returning or raising. -/
structure Outcome where
  result : Except Err Unit
  state : RouterState
  trace : List Op

/-- Sequencing with Python exception semantics: if `o` raised, the
continuation never runs; otherwise its effects are appended. -/
def Outcome.andThen (o : Outcome) (f : RouterState → Outcome) : Outcome :=
  match o.result with
  | Except.error e => { result := Except.error e, state := o.state, trace := o.trace }
  | Except.ok _ =>
      let o2 := f o.state
      { result := o2.result, state := o2.state, trace := o.trace ++ o2.trace }

/-- Starting-segment test on the underlying character lists (the meaning
of Python `str.startswith` for one head). -/
def startsWithChars : List Char → List Char → Bool
  | _, [] => true
  | [], _ :: _ => false
  | c :: cs, h :: hs => c == h && startsWithChars cs hs

/-- Python `s.startswith(h)` for strings. -/
def pyStartsWith (s h : String) : Bool :=
  startsWithChars s.data h.data

/-- Python `c.startswith(tuple)`: true when some element is a starting
segment of `c`. -/
def startsWithAny (c : String) (heads : List String) : Bool :=
  heads.any (fun h => pyStartsWith c h)

/-- Occurrence test on character lists (the meaning of Python `sub in s`
for strings). -/
def containsChars : List Char → List Char → Bool
  | [], sub => sub.isEmpty
  | c :: cs, sub => startsWithChars (c :: cs) sub || containsChars cs sub

namespace StreamConn

/-- The channel classifier used by `subscribe`: the `if/elif/else` chain
over `c.startswith`. -/
def classify (c : String) : ConnClass :=
  if startsWithAny c ["Q.", "T.", "A.", "AM."] then ConnClass.feed
  else if startsWithAny c ["bars/", "iex/", "sip/"] then ConnClass.data
  else ConnClass.events

/-- The partitioning loop of `subscribe`: distributes the requested
channels over `(ws_channels, data_channels, nats_channels)`, keeping the
requested order inside each partition. -/
def partitionChannels : List String → List String × List String × List String
  | [] => ([], [], [])
  | c :: rest =>
      let acc := partitionChannels rest
      match classify c with
      | ConnClass.feed => (acc.1, acc.2.1, c :: acc.2.2)
      | ConnClass.data => (acc.1, c :: acc.2.1, acc.2.2)
      | ConnClass.events => (c :: acc.1, acc.2.1, acc.2.2)

/-- The serialised authenticate request sent by `_connect`. -/
def authRequest (cfg : Config) : Json :=
  Json.obj [("action", Json.str "authenticate"),
            ("data", Json.obj [("key_id", Json.str cfg.keyId),
                               ("secret_key", Json.str cfg.secretKey)])]

/-- The serialised listen request sent by `subscribe` for one partition. -/
def listenRequest (streams : List String) : Json :=
  Json.obj [("action", Json.str "listen"),
            ("data", Json.obj [("streams", Json.arr (streams.map Json.str))])]

/-- The credential check in `_connect`: the data key must be present and
the status value under it must equal the string authorized, else the
`ValueError` carrying the whole decoded response is raised; the subscripts
can themselves raise `KeyError` or `TypeError` first. -/
def authCheck (msg : Json) : Except Err Unit :=
  if msg.member "data" = false then Except.error (Err.authError msg)
  else
    match msg.getKey "data" with
    | Except.error e => Except.error e
    | Except.ok d =>
        match d.getKey "status" with
        | Except.error e => Except.error e
        | Except.ok s =>
            match s with
            | Json.str "authorized" => Except.ok ()
            | _ => Except.error (Err.authError msg)

/-- Model of `_connect(ws)`: sends the authenticate request, awaits one response
(supplied by the environment), validates it, and on success stores the
socket in `_ws` (whichever class it belongs to), dispatches the synthetic
`authorized` event, and spawns the read-loop task.  `cls` records which
ensure call initiated the handshake; it affects nothing. -/
def connect (cfg : Config) (env : Env) (cls : ConnClass) (sock : Nat)
    (st : RouterState) : Outcome :=
  let msg := env.authResponse sock
  let tr := [Op.send sock (authRequest cfg), Op.recv sock]
  match authCheck msg with
  | Except.error e => { result := Except.error e, state := st, trace := tr }
  | Except.ok _ =>
      { result := Except.ok ()
        state := { st with ws := some sock, loops := st.loops ++ [(sock, cls)] }
        trace := tr ++ [Op.dispatchEvent "authorized" msg] }

/-- Model of `_ensure_ws`: return at once when `_ws` is set, otherwise connect the
events endpoint, run the handshake, and store the socket. -/
def ensureWs (cfg : Config) (env : Env) (st : RouterState) : Outcome :=
  match st.ws with
  | some _ => { result := Except.ok (), state := st, trace := [] }
  | none =>
      let sock := st.nextId
      let st1 := { st with nextId := st.nextId + 1 }
      let o := connect cfg env ConnClass.events sock st1
      match o.result with
      | Except.error e =>
          { result := Except.error e, state := o.state
            trace := Op.wsConnect cfg.endpoint sock :: o.trace }
      | Except.ok _ =>
          { result := Except.ok ()
            state := { o.state with ws := some sock }
            trace := Op.wsConnect cfg.endpoint sock :: o.trace }

/-- Model of `_ensure_data_ws`: return at once when `_data_ws` is set, otherwise
connect the data endpoint, run the same shared handshake (which also
assigns `_ws`), and store the socket in `_data_ws`. -/
def ensureDataWs (cfg : Config) (env : Env) (st : RouterState) : Outcome :=
  match st.dataWs with
  | some _ => { result := Except.ok (), state := st, trace := [] }
  | none =>
      let sock := st.nextId
      let st1 := { st with nextId := st.nextId + 1 }
      let o := connect cfg env ConnClass.data sock st1
      match o.result with
      | Except.error e =>
          { result := Except.error e, state := o.state
            trace := Op.wsConnect cfg.dataEndpoint sock :: o.trace }
      | Except.ok _ =>
          { result := Except.ok ()
            state := { o.state with dataWs := some sock }
            trace := Op.wsConnect cfg.dataEndpoint sock :: o.trace }

/-- Substring test used for the staging key suffix (Python membership of
the staging literal in the base url). -/
def containsStaging (s : String) : Bool :=
  containsChars s.data "staging".data

/-- Model of `_ensure_nats`: return at once when `polygon` is set, otherwise create
the feed client (suffixing the key on staging), register the catch-all
dispatch handler, and connect.  The client is stored before `connect()`
is awaited, exactly as in the source. -/
def ensureNats (cfg : Config) (st : RouterState) : Outcome :=
  match st.polygon with
  | some _ => { result := Except.ok (), state := st, trace := [] }
  | none =>
      let key := if containsStaging cfg.baseUrl then cfg.keyId ++ "-staging" else cfg.keyId
      let client := st.nextId
      { result := Except.ok ()
        state := { st with polygon := some client, nextId := st.nextId + 1 }
        trace := [Op.natsCreate client key, Op.natsRegister client,
                  Op.natsConnect client] }

end StreamConn

namespace StreamConn

/-- The listen send of the events partition: `self._ws.send(...)`; calling
a method on a `None` field would raise `AttributeError`. -/
def sendOnWs (payload : Json) (st : RouterState) : Outcome :=
  match st.ws with
  | some sock => { result := Except.ok (), state := st, trace := [Op.send sock payload] }
  | none => { result := Except.error Err.attributeError, state := st, trace := [] }

/-- The listen send of the data partition: `self._data_ws.send(...)`. -/
def sendOnDataWs (payload : Json) (st : RouterState) : Outcome :=
  match st.dataWs with
  | some sock => { result := Except.ok (), state := st, trace := [Op.send sock payload] }
  | none => { result := Except.error Err.attributeError, state := st, trace := [] }

/-- The feed subscribe call: `self.polygon.subscribe(nats_channels)`. -/
def sendNatsSubscribe (channels : List String) (st : RouterState) : Outcome :=
  match st.polygon with
  | some client =>
      { result := Except.ok (), state := st, trace := [Op.natsSubscribe client channels] }
  | none => { result := Except.error Err.attributeError, state := st, trace := [] }

/-- The events-partition block of `subscribe`: skipped when the partition
is empty, otherwise ensure the events socket and send one listen request. -/
def stepEvents (cfg : Config) (env : Env) (channels : List String)
    (st : RouterState) : Outcome :=
  if channels.isEmpty then { result := Except.ok (), state := st, trace := [] }
  else (ensureWs cfg env st).andThen (sendOnWs (listenRequest channels))

/-- The data-partition block of `subscribe`. -/
def stepData (cfg : Config) (env : Env) (channels : List String)
    (st : RouterState) : Outcome :=
  if channels.isEmpty then { result := Except.ok (), state := st, trace := [] }
  else (ensureDataWs cfg env st).andThen (sendOnDataWs (listenRequest channels))

/-- The feed-partition block of `subscribe`. -/
def stepNats (cfg : Config) (channels : List String) (st : RouterState) : Outcome :=
  if channels.isEmpty then { result := Except.ok (), state := st, trace := [] }
  else (ensureNats cfg st).andThen (sendNatsSubscribe channels)

/-- Model of `subscribe(channels)`: partition the requested channels, then
run the three partition blocks in the fixed source order (events socket,
data socket, feed), each awaited in sequence with no exception handling
in between. -/
def subscribe (cfg : Config) (env : Env) (channels : List String)
    (st : RouterState) : Outcome :=
  let parts := partitionChannels channels
  ((stepEvents cfg env parts.1 st).andThen
      (stepData cfg env parts.2.1)).andThen
    (stepNats cfg parts.2.2)

/-- Model of `close()`: closes whichever connections are open; none of the
three fields is assigned, so the state is returned untouched. -/
def close (st : RouterState) : RouterState × List Op :=
  (st,
    (match st.ws with | some sock => [Op.close sock] | none => []) ++
    (match st.dataWs with | some sock => [Op.close sock] | none => []) ++
    (match st.polygon with | some client => [Op.natsClose client] | none => []))

/-- Termination of the `_consume_msg` read loop running on socket `sock`
(receive failure, malformed inbound payload, or stream end all reach the
same finally block): close the socket, then clear `_data_ws` when it equals
the closing socket and `_ws` otherwise.  The finished loop task is removed
from the running set. -/
def consumeMsgCleanup (sock : Nat) (st : RouterState) : RouterState × List Op :=
  let st1 := { st with loops := st.loops.filter (fun p => p.1 != sock) }
  if st.dataWs = some sock then
    ({ st1 with dataWs := none }, [Op.close sock])
  else
    ({ st1 with ws := none }, [Op.close sock])

end StreamConn

/-- Domain entities handed to handlers: the special-cased account entity or
the generic entity, each wrapping the decoded data body. -/
inductive Entity where
  | account (body : Json) : Entity
  | generic (body : Json) : Entity

namespace StreamConn

/-- Model of `_cast(channel, msg)`: the account-specific entity for the
`account_updates` channel, the generic entity otherwise. -/
def cast (channel : String) (body : Json) : Entity :=
  if channel = "account_updates" then Entity.account body else Entity.generic body

/-- A registered handler table entry: a compiled pattern, modelled by its
anchored match function on routing keys, paired with the handler, modelled
by an identifying number.  The Python table is a dictionary keyed by the
compiled pattern object, iterated in insertion order. -/
def HandlerTable : Type := List ((String → Bool) × Nat)

/-- Model of `_dispatch(channel, msg)`: walk the handler table in order;
for each entry whose pattern matches the channel, build the entity from
the data body of the message (the subscript raises when the body is
missing) and invoke the handler.  Returns the invocation list: one
`(handler, channel, entity)` triple per performed call. -/
def dispatchWs (table : HandlerTable) (channel : String) (msg : Json) :
    Except Err (List (Nat × String × Entity)) :=
  match table with
  | [] => Except.ok []
  | entry :: rest =>
      if entry.1 channel then
        match msg.getKey "data" with
        | Except.error e => Except.error e
        | Except.ok body =>
            match dispatchWs rest channel msg with
            | Except.error e => Except.error e
            | Except.ok calls => Except.ok ((entry.2, channel, cast channel body) :: calls)
      else dispatchWs rest channel msg

/-- Model of `_dispatch_nats(conn, subject, data)`: same pattern matching
against the subject, no entity cast, the raw feed payload is passed on. -/
def dispatchNats (table : HandlerTable) (subject : String) (body : Json) :
    List (Nat × String × Json) :=
  match table with
  | [] => []
  | entry :: rest =>
      if entry.1 subject then (entry.2, subject, body) :: dispatchNats rest subject body
      else dispatchNats rest subject body

end StreamConn

/-- Caller and scheduler actions used to describe the reachable states of a
router: the public entry points plus the termination of one running read
loop. -/
inductive Cmd where
  | ensureWs : Cmd
  | ensureDataWs : Cmd
  | ensureNats : Cmd
  | subscribe (channels : List String) : Cmd
  | loopEnd (sock : Nat) : Cmd
  | closeAll : Cmd

/-- One caller/scheduler step.  A raised exception leaves the router in its
post-raise state, which the caller may keep using, so errors are not
distinguished here.  A `loopEnd` fires only for a loop that is running. -/
def stepCmd (cfg : Config) (env : Env) (st : RouterState) : Cmd → RouterState
  | Cmd.ensureWs => (StreamConn.ensureWs cfg env st).state
  | Cmd.ensureDataWs => (StreamConn.ensureDataWs cfg env st).state
  | Cmd.ensureNats => (StreamConn.ensureNats cfg st).state
  | Cmd.subscribe channels => (StreamConn.subscribe cfg env channels st).state
  | Cmd.loopEnd sock =>
      if st.loops.any (fun p => p.1 == sock) then (StreamConn.consumeMsgCleanup sock st).1
      else st
  | Cmd.closeAll => (StreamConn.close st).1

/-- Run of a command list from a state. -/
def runCmds (cfg : Config) (env : Env) : List Cmd → RouterState → RouterState
  | [], st => st
  | c :: rest, st => runCmds cfg env rest (stepCmd cfg env st c)

/-- Concrete configuration used by the closed example runs. -/
def cfgEx : Config :=
  { keyId := "key-id", secretKey := "secret-key",
    baseUrl := "wss://api.example.com",
    endpoint := "wss://api.example.com/stream",
    dataEndpoint := "wss://data.example.com/stream" }

/-- A well-formed authorized authenticate response. -/
def authorizedMsg : Json :=
  Json.obj [("data", Json.obj [("status", Json.str "authorized")])]

/-- An authenticate response with a non-authorized status. -/
def deniedMsg : Json :=
  Json.obj [("data", Json.obj [("status", Json.str "unauthorized")])]

/-- A malformed authenticate response: a data payload with no status. -/
def noStatusMsg : Json :=
  Json.obj [("data", Json.obj [])]

/-- Environment in which every handshake is authorized. -/
def envOk : Env := { authResponse := fun _ => authorizedMsg }

/-- Environment in which every handshake is denied. -/
def envDenied : Env := { authResponse := fun _ => deniedMsg }

/-- Environment in which every handshake response lacks the status field. -/
def envNoStatus : Env := { authResponse := fun _ => noStatusMsg }

/-- Trace test: the operation is a listen send on socket `sock` whose
streams list contains `chan`. -/
def isListenOn (sock : Nat) (chan : String) (op : Op) : Bool :=
  match op with
  | Op.send s (Json.obj [("action", Json.str a),
      ("data", Json.obj [("streams", Json.arr streams)])]) =>
      s == sock && a == "listen" &&
        streams.any (fun j => match j with | Json.str c => c == chan | _ => false)
  | _ => false

/-- Trace test: the operation is a feed subscribe call containing `chan`. -/
def isNatsSubscribeWith (chan : String) (op : Op) : Bool :=
  match op with
  | Op.natsSubscribe _ chs => chs.contains chan
  | _ => false

/-- Trace test: the operation is a transport connect to endpoint `ep`
yielding socket `sock`. -/
def isWsConnectTo (ep : String) (sock : Nat) (op : Op) : Bool :=
  match op with
  | Op.wsConnect e s => e == ep && s == sock
  | _ => false

/-- Trace test: the operation is a transport connect to endpoint `ep`. -/
def onEndpoint (ep : String) (op : Op) : Bool :=
  match op with
  | Op.wsConnect e _ => e == ep
  | _ => false

/-- Trace test: the operation belongs to the low-latency feed client. -/
def isFeedOp (op : Op) : Bool :=
  match op with
  | Op.natsCreate _ _ => true
  | Op.natsRegister _ => true
  | Op.natsConnect _ => true
  | Op.natsSubscribe _ _ => true
  | Op.natsClose _ => true
  | _ => false

/-- Result test: the outcome result is the authentication failure. -/
def resultIsAuthError (r : Except Err Unit) : Bool :=
  match r with
  | Except.error (Err.authError _) => true
  | _ => false

/-- Reachability invariant of the router state: a running read loop tagged
with the data class is exactly the loop of the socket currently stored in
`_data_ws`; every running loop belongs to one of the two socket classes
and was spawned on a socket below the fresh-id counter; and no two running
loops share a socket. -/
def RouterInv (st : RouterState) : Prop :=
  (∀ s, (s, ConnClass.data) ∈ st.loops → st.dataWs = some s) ∧
  (∀ s, st.dataWs = some s → (s, ConnClass.data) ∈ st.loops) ∧
  (∀ p ∈ st.loops, p.1 < st.nextId ∧ p.2 ≠ ConnClass.feed) ∧
  st.loops.Pairwise (fun p q => p.1 ≠ q.1)

/-- A state with all three connections open, used by the idempotence
witnesses. -/
def stOpen : RouterState :=
  { ws := some 0, dataWs := some 1, polygon := some 2, nextId := 3,
    loops := [(0, ConnClass.events), (1, ConnClass.data)] }

/-- Handler table of the fan-out example: a pattern matching every key
beginning `T.`, a pattern matching exactly `T.AAPL`, and a pattern
matching keys beginning `Q.` (which does not match `T.AAPL`). -/
def tableEx : StreamConn.HandlerTable :=
  [(fun s => pyStartsWith s "T.", 1),
   (fun s => s == "T.AAPL", 2),
   (fun s => pyStartsWith s "Q.", 3)]

/-- An inbound trade message on channel `T.AAPL`. -/
def tradeMsgEx : Json :=
  Json.obj [("stream", Json.str "T.AAPL"), ("data", Json.obj [("price", Json.num 180)])]

/-- An inbound account update message. -/
def accountMsgEx : Json :=
  Json.obj [("stream", Json.str "account_updates"),
            ("data", Json.obj [("cash", Json.num 1000)])]

/-- Handler table of the account-cast example: one pattern matching exactly
`account_updates`. -/
def accountTableEx : StreamConn.HandlerTable :=
  [(fun s => s == "account_updates", 7)]

/-- Convenience: the events-partition block of a subscribe call. -/
def eventsOutcome (cfg : Config) (env : Env) (channels : List String)
    (st : RouterState) : Outcome :=
  StreamConn.stepEvents cfg env (StreamConn.partitionChannels channels).1 st

/-- Convenience: the data-partition block of a subscribe call, run from the
state the events-partition block left behind. -/
def dataOutcome (cfg : Config) (env : Env) (channels : List String)
    (st : RouterState) : Outcome :=
  StreamConn.stepData cfg env (StreamConn.partitionChannels channels).2.1
    (eventsOutcome cfg env channels st).state

/-- Convenience: the feed-partition block of a subscribe call, run from the
state the data-partition block left behind. -/
def natsOutcome (cfg : Config) (env : Env) (channels : List String)
    (st : RouterState) : Outcome :=
  StreamConn.stepNats cfg (StreamConn.partitionChannels channels).2.2
    (dataOutcome cfg env channels st).state

/-- Command list of the read-loop cleanup witness run. -/
def cmdsW : List Cmd := [Cmd.subscribe ["trade_updates", "bars/AAPL"]]

/-- State reached by the read-loop cleanup witness run. -/
def stW : RouterState :=
  { ws := some 1, dataWs := some 1, polygon := none, nextId := 2,
    loops := [(0, ConnClass.events), (1, ConnClass.data)] }

/-- The data body of the trade message example. -/
def tradeBodyEx : Json := Json.obj [("price", Json.num 180)]

/-- The data body of the account message example. -/
def accountBodyEx : Json := Json.obj [("cash", Json.num 1000)]

theorem member_of_getKey_ok {msg : Json} {k : String} {d : Json}
    (h : msg.getKey k = Except.ok d) : msg.member k = true := by
  cases msg <;> simp [Json.getKey] at h
  case obj fields =>
    cases hl : fields.lookup k with
    | none => rw [hl] at h; exact absurd h (by simp)
    | some v => simp [Json.member, hl]

theorem dispatchWs_eq (table : StreamConn.HandlerTable) (channel : String)
    (msg body : Json) (h : msg.getKey "data" = Except.ok body) :
    StreamConn.dispatchWs table channel msg =
      Except.ok ((table.filter (fun e => e.1 channel)).map
        (fun e => (e.2, channel, StreamConn.cast channel body))) := by
  induction table with
  | nil => simp [StreamConn.dispatchWs]
  | cons entry rest ih =>
      by_cases hp : entry.1 channel = true
      · simp [StreamConn.dispatchWs, hp, h, ih, List.filter_cons]
      · simp [StreamConn.dispatchWs, hp, ih, List.filter_cons]

theorem dispatchNats_eq (table : StreamConn.HandlerTable) (subject : String)
    (body : Json) :
    StreamConn.dispatchNats table subject body =
      (table.filter (fun e => e.1 subject)).map (fun e => (e.2, subject, body)) := by
  induction table with
  | nil => simp [StreamConn.dispatchNats]
  | cons entry rest ih =>
      by_cases hp : entry.1 subject = true
      · simp [StreamConn.dispatchNats, hp, ih, List.filter_cons]
      · simp [StreamConn.dispatchNats, hp, ih, List.filter_cons]

/-- C2: the claim states that the events-socket field and the data-socket
field never alias the same connection, and that establishing the data
connection leaves the events-socket field unchanged.  The code violates
this: the shared handshake `_connect` assigns `self._ws = ws` even when it
was called from `_ensure_data_ws`, so after a successful data connect on a
fresh router both fields hold the same socket and the events field changed
from absent to the data socket. -/
theorem ensureDataWs_aliases_events_field :
    initState.ws = none ∧
    (StreamConn.ensureDataWs cfgEx envOk initState).result = Except.ok () ∧
    (StreamConn.ensureDataWs cfgEx envOk initState).state.dataWs = some 0 ∧
    (StreamConn.ensureDataWs cfgEx envOk initState).state.ws = some 0 :=
  ⟨rfl, rfl, rfl, rfl⟩

/-- C5: subscribing to the three-channel list sends exactly one listen
request on the events socket (socket 0, connected to the events endpoint)
whose streams contain `trade_updates`, exactly one feed subscribe call
containing `T.AAPL`, and exactly one listen request on the data socket
(socket 1, connected to the data endpoint) whose streams contain
`bars/AAPL`. -/
theorem subscribe_roundtrip_exactly_once :
    (StreamConn.subscribe cfgEx envOk ["trade_updates", "T.AAPL", "bars/AAPL"]
        initState).result = Except.ok () ∧
    List.countP (fun op => isWsConnectTo cfgEx.endpoint 0 op)
      (StreamConn.subscribe cfgEx envOk ["trade_updates", "T.AAPL", "bars/AAPL"]
        initState).trace = 1 ∧
    List.countP (fun op => isListenOn 0 "trade_updates" op)
      (StreamConn.subscribe cfgEx envOk ["trade_updates", "T.AAPL", "bars/AAPL"]
        initState).trace = 1 ∧
    List.countP (fun op => isWsConnectTo cfgEx.dataEndpoint 1 op)
      (StreamConn.subscribe cfgEx envOk ["trade_updates", "T.AAPL", "bars/AAPL"]
        initState).trace = 1 ∧
    List.countP (fun op => isListenOn 1 "bars/AAPL" op)
      (StreamConn.subscribe cfgEx envOk ["trade_updates", "T.AAPL", "bars/AAPL"]
        initState).trace = 1 ∧
    List.countP (fun op => isNatsSubscribeWith "T.AAPL" op)
      (StreamConn.subscribe cfgEx envOk ["trade_updates", "T.AAPL", "bars/AAPL"]
        initState).trace = 1 :=
  ⟨rfl, rfl, rfl, rfl, rfl, rfl⟩

/-- C6: the classifier assigns every channel name to exactly one class by
prefix rules anchored at the start and checked in fixed order — feed
prefixes first, then data prefixes, else the events class — so a feed
prefix at the start wins regardless of other prefixes occurring later in
the string, a prefix occurring away from the start does not reclassify the
name, and batch partitioning keeps the requested order inside each
partition (each partition is the order-preserving filter of its class). -/
theorem classifier_prefix_rules :
    (∀ c, StreamConn.classify c = ConnClass.feed ↔
        startsWithAny c ["Q.", "T.", "A.", "AM."] = true) ∧
    (∀ c, StreamConn.classify c = ConnClass.data ↔
        (startsWithAny c ["Q.", "T.", "A.", "AM."] = false ∧
         startsWithAny c ["bars/", "iex/", "sip/"] = true)) ∧
    (∀ c, StreamConn.classify c = ConnClass.events ↔
        (startsWithAny c ["Q.", "T.", "A.", "AM."] = false ∧
         startsWithAny c ["bars/", "iex/", "sip/"] = false)) ∧
    (∀ channels, StreamConn.partitionChannels channels =
        (channels.filter (fun c => StreamConn.classify c == ConnClass.events),
         channels.filter (fun c => StreamConn.classify c == ConnClass.data),
         channels.filter (fun c => StreamConn.classify c == ConnClass.feed))) ∧
    StreamConn.classify "T.bars/AAPL" = ConnClass.feed ∧
    StreamConn.classify "xT.AAPL" = ConnClass.events := by
  refine ⟨?_, ?_, ?_, ?_, rfl, rfl⟩
  · intro c
    unfold StreamConn.classify
    by_cases h1 : startsWithAny c ["Q.", "T.", "A.", "AM."] = true
    · simp [h1]
    · by_cases h2 : startsWithAny c ["bars/", "iex/", "sip/"] = true <;>
        simp [h1, h2]
  · intro c
    unfold StreamConn.classify
    by_cases h1 : startsWithAny c ["Q.", "T.", "A.", "AM."] = true
    · simp [h1]
    · by_cases h2 : startsWithAny c ["bars/", "iex/", "sip/"] = true <;>
        simp [h1, h2]
  · intro c
    unfold StreamConn.classify
    by_cases h1 : startsWithAny c ["Q.", "T.", "A.", "AM."] = true
    · simp [h1]
    · by_cases h2 : startsWithAny c ["bars/", "iex/", "sip/"] = true <;>
        simp [h1, h2]
  · intro channels
    induction channels with
    | nil => rfl
    | cons c rest ih =>
        cases hcl : StreamConn.classify c <;>
          simp [StreamConn.partitionChannels, hcl, ih, List.filter_cons]

/-- C7: for one inbound message, dispatch invokes exactly the registered
handlers whose pattern matches the routing key, one invocation per
matching table entry in table order — the invocation list equals the table
filtered to matching entries mapped to one call each, so a matching
handler is invoked exactly once and a non-matching handler never; the
feed-subject dispatch variant obeys the same matching rule. -/
theorem dispatch_fanout_exactly_once (table : StreamConn.HandlerTable)
    (channel : String) (msg body : Json)
    (h : msg.getKey "data" = Except.ok body) :
    StreamConn.dispatchWs table channel msg =
      Except.ok ((table.filter (fun e => e.1 channel)).map
        (fun e => (e.2, channel, StreamConn.cast channel body))) ∧
    (∀ subject payload, StreamConn.dispatchNats table subject payload =
        (table.filter (fun e => e.1 subject)).map
          (fun e => (e.2, subject, payload))) :=
  ⟨dispatchWs_eq table channel msg body h,
   fun subject payload => dispatchNats_eq table subject payload⟩

/-- Witness for C7: on the example table, the pattern matching every key
beginning `T.` and the pattern matching exactly `T.AAPL` are each invoked
exactly once for one message with routing key `T.AAPL`, and the handler
registered for keys beginning `Q.` is not invoked. -/
theorem dispatch_fanout_exactly_once_witness :
    tradeMsgEx.getKey "data" = Except.ok tradeBodyEx ∧
    StreamConn.dispatchWs tableEx "T.AAPL" tradeMsgEx =
      Except.ok [(1, "T.AAPL", Entity.generic tradeBodyEx),
                 (2, "T.AAPL", Entity.generic tradeBodyEx)] :=
  ⟨rfl,
   ((dispatch_fanout_exactly_once tableEx "T.AAPL" tradeMsgEx tradeBodyEx rfl).1).trans rfl⟩

/-- C9: a handler invoked for the account_updates stream receives the
Account-specific cast of the data body of the message, and a handler
invoked for any other channel receives the generic cast. -/
theorem dispatch_account_specific_cast (table : StreamConn.HandlerTable)
    (msg body : Json) (h : msg.getKey "data" = Except.ok body) :
    StreamConn.cast "account_updates" body = Entity.account body ∧
    (∀ ch b, ch ≠ "account_updates" → StreamConn.cast ch b = Entity.generic b) ∧
    (∀ calls, StreamConn.dispatchWs table "account_updates" msg = Except.ok calls →
        ∀ c ∈ calls, c.2.2 = Entity.account body) ∧
    (∀ ch calls, ch ≠ "account_updates" →
        StreamConn.dispatchWs table ch msg = Except.ok calls →
        ∀ c ∈ calls, c.2.2 = Entity.generic body) := by
  refine ⟨by simp [StreamConn.cast], fun ch b hch => by simp [StreamConn.cast, hch], ?_, ?_⟩
  · intro calls hc c hmem
    rw [dispatchWs_eq table "account_updates" msg body h] at hc
    cases hc
    simp only [List.mem_map] at hmem
    obtain ⟨e, he, rfl⟩ := hmem
    simp [StreamConn.cast]
  · intro ch calls hch hc c hmem
    rw [dispatchWs_eq table ch msg body h] at hc
    cases hc
    simp only [List.mem_map] at hmem
    obtain ⟨e, he, rfl⟩ := hmem
    simp [StreamConn.cast, hch]

/-- Witness for C9: a handler registered on a pattern matching exactly
`account_updates` receives the Account-cast entity for an inbound account
update message. -/
theorem dispatch_account_specific_cast_witness :
    accountMsgEx.getKey "data" = Except.ok accountBodyEx ∧
    StreamConn.dispatchWs accountTableEx "account_updates" accountMsgEx =
      Except.ok [(7, "account_updates", Entity.account accountBodyEx)] ∧
    (∀ c ∈ [(7, "account_updates", Entity.account accountBodyEx)],
        c.2.2 = Entity.account accountBodyEx) := by
  refine ⟨rfl, rfl, ?_⟩
  exact (dispatch_account_specific_cast accountTableEx accountMsgEx accountBodyEx rfl).2.2.1
    [(7, "account_updates", Entity.account accountBodyEx)] rfl

/-- C8: each ensure operation returns immediately, with no network
operation and no state change, when its connection handle is already
present, and calling it twice in sequence on an already open connection
equals calling it once. -/
theorem ensure_idempotent_when_open (cfg : Config) (env : Env) (st : RouterState) :
    (∀ s, st.ws = some s →
        StreamConn.ensureWs cfg env st =
          { result := Except.ok (), state := st, trace := [] }) ∧
    (∀ s, st.dataWs = some s →
        StreamConn.ensureDataWs cfg env st =
          { result := Except.ok (), state := st, trace := [] }) ∧
    (∀ cl, st.polygon = some cl →
        StreamConn.ensureNats cfg st =
          { result := Except.ok (), state := st, trace := [] }) ∧
    (∀ s, st.ws = some s →
        StreamConn.ensureWs cfg env (StreamConn.ensureWs cfg env st).state =
          StreamConn.ensureWs cfg env st) ∧
    (∀ s, st.dataWs = some s →
        StreamConn.ensureDataWs cfg env (StreamConn.ensureDataWs cfg env st).state =
          StreamConn.ensureDataWs cfg env st) ∧
    (∀ cl, st.polygon = some cl →
        StreamConn.ensureNats cfg (StreamConn.ensureNats cfg st).state =
          StreamConn.ensureNats cfg st) := by
  refine ⟨fun s h => by simp [StreamConn.ensureWs, h],
          fun s h => by simp [StreamConn.ensureDataWs, h],
          fun cl h => by simp [StreamConn.ensureNats, h],
          fun s h => by simp [StreamConn.ensureWs, h],
          fun s h => by simp [StreamConn.ensureDataWs, h],
          fun cl h => by simp [StreamConn.ensureNats, h]⟩

/-- Witness for C8: on a state with all three connections open, each
ensure returns immediately with an empty trace and twice equals once. -/
theorem ensure_idempotent_when_open_witness :
    stOpen.ws = some 0 ∧ stOpen.dataWs = some 1 ∧ stOpen.polygon = some 2 ∧
    StreamConn.ensureWs cfgEx envOk stOpen =
      { result := Except.ok (), state := stOpen, trace := [] } ∧
    StreamConn.ensureDataWs cfgEx envOk stOpen =
      { result := Except.ok (), state := stOpen, trace := [] } ∧
    StreamConn.ensureNats cfgEx stOpen =
      { result := Except.ok (), state := stOpen, trace := [] } ∧
    StreamConn.ensureWs cfgEx envOk (StreamConn.ensureWs cfgEx envOk stOpen).state =
      StreamConn.ensureWs cfgEx envOk stOpen := by
  have h := ensure_idempotent_when_open cfgEx envOk stOpen
  exact ⟨rfl, rfl, rfl, h.1 0 rfl, h.2.1 1 rfl, h.2.2.1 2 rfl, h.2.2.2.1 0 rfl⟩

/-- C10: the close operation never clears the stored connection handles:
it leaves the whole state unchanged while closing every open connection,
so a subsequent ensure call on a class whose (now closed) handle is still
present returns immediately without reconnecting, and a subsequent
subscribe for that class sends its listen request on the closed socket. -/
theorem close_never_clears_handles (cfg : Config) (env : Env) (st : RouterState) :
    (StreamConn.close st).1 = st ∧
    (∀ s, st.ws = some s →
        Op.close s ∈ (StreamConn.close st).2 ∧
        StreamConn.ensureWs cfg env (StreamConn.close st).1 =
          { result := Except.ok (), state := st, trace := [] } ∧
        (StreamConn.subscribe cfg env ["trade_updates"] (StreamConn.close st).1).trace =
          [Op.send s (StreamConn.listenRequest ["trade_updates"])]) ∧
    (∀ s, st.dataWs = some s →
        Op.close s ∈ (StreamConn.close st).2 ∧
        StreamConn.ensureDataWs cfg env (StreamConn.close st).1 =
          { result := Except.ok (), state := st, trace := [] }) ∧
    (∀ cl, st.polygon = some cl →
        Op.natsClose cl ∈ (StreamConn.close st).2 ∧
        StreamConn.ensureNats cfg (StreamConn.close st).1 =
          { result := Except.ok (), state := st, trace := [] }) := by
  have hc : (StreamConn.close st).1 = st := rfl
  rw [hc]
  refine ⟨rfl, ?_, ?_, ?_⟩
  · intro s h
    have hpart : StreamConn.partitionChannels ["trade_updates"] =
        (["trade_updates"], [], []) := rfl
    refine ⟨by simp [StreamConn.close, h], by simp [StreamConn.ensureWs, h], ?_⟩
    simp [StreamConn.subscribe, hpart, StreamConn.stepEvents, StreamConn.stepData,
      StreamConn.stepNats, Outcome.andThen, StreamConn.ensureWs, StreamConn.sendOnWs, h]
  · intro s h
    exact ⟨by simp [StreamConn.close, h], by simp [StreamConn.ensureDataWs, h]⟩
  · intro cl h
    exact ⟨by simp [StreamConn.close, h], by simp [StreamConn.ensureNats, h]⟩

/-- Witness for C10: on the all-open state, close leaves every handle in
place, emits the close operations, and a following subscribe for the
events class sends its listen request on the still-stored socket 0. -/
theorem close_never_clears_handles_witness :
    (StreamConn.close stOpen).1 = stOpen ∧ stOpen.ws = some 0 ∧
    Op.close 0 ∈ (StreamConn.close stOpen).2 ∧
    StreamConn.ensureWs cfgEx envOk (StreamConn.close stOpen).1 =
      { result := Except.ok (), state := stOpen, trace := [] } ∧
    (StreamConn.subscribe cfgEx envOk ["trade_updates"] (StreamConn.close stOpen).1).trace =
      [Op.send 0 (StreamConn.listenRequest ["trade_updates"])] := by
  have h := close_never_clears_handles cfgEx envOk stOpen
  have h0 := h.2.1 0 rfl
  exact ⟨h.1, rfl, h0.1, h0.2.1, h0.2.2⟩

theorem ensureWs_authCheck_error (cfg : Config) (env : Env) (st : RouterState)
    (e : Err) (hw : st.ws = none)
    (hc : StreamConn.authCheck (env.authResponse st.nextId) = Except.error e) :
    StreamConn.ensureWs cfg env st =
      { result := Except.error e,
        state := { st with nextId := st.nextId + 1 },
        trace := [Op.wsConnect cfg.endpoint st.nextId,
                  Op.send st.nextId (StreamConn.authRequest cfg),
                  Op.recv st.nextId] } := by
  simp [StreamConn.ensureWs, StreamConn.connect, hw, hc]

theorem ensureDataWs_authCheck_error (cfg : Config) (env : Env) (st : RouterState)
    (e : Err) (hd : st.dataWs = none)
    (hc : StreamConn.authCheck (env.authResponse st.nextId) = Except.error e) :
    StreamConn.ensureDataWs cfg env st =
      { result := Except.error e,
        state := { st with nextId := st.nextId + 1 },
        trace := [Op.wsConnect cfg.dataEndpoint st.nextId,
                  Op.send st.nextId (StreamConn.authRequest cfg),
                  Op.recv st.nextId] } := by
  simp [StreamConn.ensureDataWs, StreamConn.connect, hd, hc]

/-- C4 (amended): during the handshake, a response with no data payload,
or with a status value different from the string authorized, fails with
the authentication error carrying the whole raw response; but a data
payload lacking a status field fails with a key-lookup error on the
status key (not with the authentication error).  In every failing case
the ensure call propagates the failure and both stored socket handles
remain absent. -/
theorem handshake_failure_cases (cfg : Config) (env : Env) (st : RouterState)
    (msg : Json) (hw : st.ws = none) (hd : st.dataWs = none)
    (hm : env.authResponse st.nextId = msg) :
    (msg.member "data" = false →
        StreamConn.authCheck msg = Except.error (Err.authError msg)) ∧
    (∀ d s, msg.getKey "data" = Except.ok d → d.getKey "status" = Except.ok s →
        s ≠ Json.str "authorized" →
        StreamConn.authCheck msg = Except.error (Err.authError msg)) ∧
    (∀ fields, msg.getKey "data" = Except.ok (Json.obj fields) →
        fields.lookup "status" = none →
        StreamConn.authCheck msg = Except.error (Err.keyError "status")) ∧
    (∀ e, StreamConn.authCheck msg = Except.error e →
        (StreamConn.ensureWs cfg env st).result = Except.error e ∧
        (StreamConn.ensureWs cfg env st).state.ws = none ∧
        (StreamConn.ensureWs cfg env st).state.dataWs = none ∧
        (StreamConn.ensureDataWs cfg env st).result = Except.error e ∧
        (StreamConn.ensureDataWs cfg env st).state.dataWs = none ∧
        (StreamConn.ensureDataWs cfg env st).state.ws = none) := by
  refine ⟨?_, ?_, ?_, ?_⟩
  · intro hmem
    simp [StreamConn.authCheck, hmem]
  · intro d s h1 h2 hne
    have hmem := member_of_getKey_ok h1
    unfold StreamConn.authCheck
    rw [hmem]
    simp only [Bool.true_eq_false, if_false, h1, h2]
  · intro fields h1 h2
    have hmem := member_of_getKey_ok h1
    unfold StreamConn.authCheck
    rw [hmem]
    simp only [Bool.true_eq_false, if_false, h1]
    simp [Json.getKey, h2]
  · intro e he
    rw [← hm] at he
    rw [ensureWs_authCheck_error cfg env st e hw he,
        ensureDataWs_authCheck_error cfg env st e hd he]
    exact ⟨rfl, hw, hd, rfl, hd, hw⟩

/-- Counterexample for C4: on the response whose data payload lacks a
status field, the handshake fails with the key-lookup error, not with an
authentication error carrying the raw response, so the claim that every
malformed payload yields the authentication error is false on the code. -/
theorem handshake_missing_status_not_authError :
    (StreamConn.ensureWs cfgEx envNoStatus initState).result =
      Except.error (Err.keyError "status") ∧
    resultIsAuthError (StreamConn.ensureWs cfgEx envNoStatus initState).result = false :=
  ⟨rfl, rfl⟩

/-- Witness for C4: the denied response triggers the authentication error
carrying the raw response on both socket classes of a fresh router, and
the missing-status response triggers the key-lookup error, leaving the
handles absent in both cases. -/
theorem handshake_failure_cases_witness :
    initState.ws = none ∧
    StreamConn.authCheck deniedMsg = Except.error (Err.authError deniedMsg) ∧
    StreamConn.authCheck noStatusMsg = Except.error (Err.keyError "status") ∧
    (StreamConn.ensureWs cfgEx envDenied initState).result =
      Except.error (Err.authError deniedMsg) ∧
    (StreamConn.ensureWs cfgEx envDenied initState).state.ws = none ∧
    (StreamConn.ensureDataWs cfgEx envDenied initState).state.dataWs = none := by
  have h := handshake_failure_cases cfgEx envDenied initState deniedMsg rfl rfl rfl
  have hstatus : (Json.str "unauthorized") ≠ Json.str "authorized" := by
    intro hh
    injection hh with hs
    exact (by decide : ("unauthorized" : String) ≠ "authorized") hs
  have hden : StreamConn.authCheck deniedMsg = Except.error (Err.authError deniedMsg) :=
    h.2.1 (Json.obj [("status", Json.str "unauthorized")]) (Json.str "unauthorized")
      rfl rfl hstatus
  have hns : StreamConn.authCheck noStatusMsg = Except.error (Err.keyError "status") :=
    (handshake_failure_cases cfgEx envNoStatus initState noStatusMsg rfl rfl rfl).2.2.1
      [] rfl rfl
  have hprop := h.2.2.2 (Err.authError deniedMsg) hden
  exact ⟨rfl, hden, hns, hprop.1, hprop.2.1, hprop.2.2.2.2.1⟩

/-- Counterexample for C1: with the events handshake denied, subscribing
to a list that spans all three classes fails with the events
authentication error after only the events-partition operations; the
non-empty data and feed partitions are never attempted — no connect to the
data endpoint and no feed-client operation occurs — contradicting the
claim that the ensure/send sequence of each partition still executes. -/
theorem subscribe_partition_not_independent :
    (StreamConn.partitionChannels ["trade_updates", "T.AAPL", "bars/AAPL"]).2.1 =
      ["bars/AAPL"] ∧
    (StreamConn.partitionChannels ["trade_updates", "T.AAPL", "bars/AAPL"]).2.2 =
      ["T.AAPL"] ∧
    (StreamConn.subscribe cfgEx envDenied ["trade_updates", "T.AAPL", "bars/AAPL"]
        initState).result = Except.error (Err.authError deniedMsg) ∧
    (StreamConn.subscribe cfgEx envDenied ["trade_updates", "T.AAPL", "bars/AAPL"]
        initState).trace =
      [Op.wsConnect cfgEx.endpoint 0, Op.send 0 (StreamConn.authRequest cfgEx),
       Op.recv 0] ∧
    List.countP (fun op => onEndpoint cfgEx.dataEndpoint op)
      (StreamConn.subscribe cfgEx envDenied ["trade_updates", "T.AAPL", "bars/AAPL"]
        initState).trace = 0 ∧
    List.countP (fun op => isFeedOp op)
      (StreamConn.subscribe cfgEx envDenied ["trade_updates", "T.AAPL", "bars/AAPL"]
        initState).trace = 0 :=
  ⟨rfl, rfl, rfl, rfl, rfl, rfl⟩

/-- C1 (amended): the three partitions are processed strictly in the fixed
source order (events socket, data socket, feed) with no exception handling
between them, so a failure in a partition propagates immediately: it
prevents every later partition from being attempted, while the operations
of the partitions already completed before the failure remain performed. -/
theorem subscribe_sequential_abort (cfg : Config) (env : Env)
    (channels : List String) (st : RouterState) :
    (∀ e, (eventsOutcome cfg env channels st).result = Except.error e →
        StreamConn.subscribe cfg env channels st =
          { result := Except.error e,
            state := (eventsOutcome cfg env channels st).state,
            trace := (eventsOutcome cfg env channels st).trace }) ∧
    (∀ e, (eventsOutcome cfg env channels st).result = Except.ok () →
        (dataOutcome cfg env channels st).result = Except.error e →
        StreamConn.subscribe cfg env channels st =
          { result := Except.error e,
            state := (dataOutcome cfg env channels st).state,
            trace := (eventsOutcome cfg env channels st).trace ++
              (dataOutcome cfg env channels st).trace }) ∧
    ((eventsOutcome cfg env channels st).result = Except.ok () →
        (dataOutcome cfg env channels st).result = Except.ok () →
        StreamConn.subscribe cfg env channels st =
          { result := (natsOutcome cfg env channels st).result,
            state := (natsOutcome cfg env channels st).state,
            trace := ((eventsOutcome cfg env channels st).trace ++
              (dataOutcome cfg env channels st).trace) ++
              (natsOutcome cfg env channels st).trace }) := by
  refine ⟨?_, ?_, ?_⟩
  · intro e he
    simp [StreamConn.subscribe, Outcome.andThen, eventsOutcome] at he ⊢
    rw [he]
  · intro e hok he
    simp [StreamConn.subscribe, Outcome.andThen, eventsOutcome, dataOutcome] at hok he ⊢
    rw [hok]
    simp [he]
  · intro hok1 hok2
    simp [StreamConn.subscribe, Outcome.andThen, eventsOutcome, dataOutcome,
      natsOutcome] at hok1 hok2 ⊢
    rw [hok1]
    simp [hok2]

/-- Witness for C1 (amended): with the events handshake authorized and the
data handshake denied, the events partition completes — its listen request
is sent — and subscribe then fails with the data-partition error; and in
the all-denied run the events-partition failure makes subscribe return
exactly the events-partition outcome. -/
theorem subscribe_sequential_abort_witness :
    (eventsOutcome cfgEx envDenied ["trade_updates", "T.AAPL", "bars/AAPL"]
        initState).result = Except.error (Err.authError deniedMsg) ∧
    StreamConn.subscribe cfgEx envDenied ["trade_updates", "T.AAPL", "bars/AAPL"]
        initState =
      { result := Except.error (Err.authError deniedMsg),
        state := (eventsOutcome cfgEx envDenied ["trade_updates", "T.AAPL", "bars/AAPL"]
          initState).state,
        trace := (eventsOutcome cfgEx envDenied ["trade_updates", "T.AAPL", "bars/AAPL"]
          initState).trace } :=
  ⟨rfl,
   (subscribe_sequential_abort cfgEx envDenied ["trade_updates", "T.AAPL", "bars/AAPL"]
      initState).1 (Err.authError deniedMsg) rfl⟩

theorem ensureWs_state_some (cfg : Config) (env : Env) (st : RouterState)
    (s : Nat) (h : st.ws = some s) :
    (StreamConn.ensureWs cfg env st).state = st := by
  simp [StreamConn.ensureWs, h]

theorem ensureWs_state_error (cfg : Config) (env : Env) (st : RouterState)
    (e : Err) (hw : st.ws = none)
    (hc : StreamConn.authCheck (env.authResponse st.nextId) = Except.error e) :
    (StreamConn.ensureWs cfg env st).state = { st with nextId := st.nextId + 1 } := by
  simp [StreamConn.ensureWs, StreamConn.connect, hw, hc]

theorem ensureWs_state_ok (cfg : Config) (env : Env) (st : RouterState)
    (u : Unit) (hw : st.ws = none)
    (hc : StreamConn.authCheck (env.authResponse st.nextId) = Except.ok u) :
    (StreamConn.ensureWs cfg env st).state =
      { st with
        ws := some st.nextId
        nextId := st.nextId + 1
        loops := st.loops ++ [(st.nextId, ConnClass.events)] } := by
  simp [StreamConn.ensureWs, StreamConn.connect, hw, hc]

theorem ensureDataWs_state_some (cfg : Config) (env : Env) (st : RouterState)
    (s : Nat) (h : st.dataWs = some s) :
    (StreamConn.ensureDataWs cfg env st).state = st := by
  simp [StreamConn.ensureDataWs, h]

theorem ensureDataWs_state_error (cfg : Config) (env : Env) (st : RouterState)
    (e : Err) (hd : st.dataWs = none)
    (hc : StreamConn.authCheck (env.authResponse st.nextId) = Except.error e) :
    (StreamConn.ensureDataWs cfg env st).state = { st with nextId := st.nextId + 1 } := by
  simp [StreamConn.ensureDataWs, StreamConn.connect, hd, hc]

theorem ensureDataWs_state_ok (cfg : Config) (env : Env) (st : RouterState)
    (u : Unit) (hd : st.dataWs = none)
    (hc : StreamConn.authCheck (env.authResponse st.nextId) = Except.ok u) :
    (StreamConn.ensureDataWs cfg env st).state =
      { st with
        ws := some st.nextId
        dataWs := some st.nextId
        nextId := st.nextId + 1
        loops := st.loops ++ [(st.nextId, ConnClass.data)] } := by
  simp [StreamConn.ensureDataWs, StreamConn.connect, hd, hc]

theorem ensureNats_state (cfg : Config) (st : RouterState) :
    (StreamConn.ensureNats cfg st).state = st ∨
    (StreamConn.ensureNats cfg st).state =
      { st with polygon := some st.nextId, nextId := st.nextId + 1 } := by
  cases h : st.polygon with
  | some cl => exact Or.inl (by simp [StreamConn.ensureNats, h])
  | none => exact Or.inr (by simp [StreamConn.ensureNats, h])

theorem sendOnWs_state (p : Json) (st : RouterState) :
    (StreamConn.sendOnWs p st).state = st := by
  cases h : st.ws <;> simp [StreamConn.sendOnWs, h]

theorem sendOnDataWs_state (p : Json) (st : RouterState) :
    (StreamConn.sendOnDataWs p st).state = st := by
  cases h : st.dataWs <;> simp [StreamConn.sendOnDataWs, h]

theorem sendNatsSubscribe_state (channels : List String) (st : RouterState) :
    (StreamConn.sendNatsSubscribe channels st).state = st := by
  cases h : st.polygon <;> simp [StreamConn.sendNatsSubscribe, h]

theorem routerInv_init : RouterInv initState := by
  refine ⟨?_, ?_, ?_, ?_⟩ <;> simp [initState]

theorem routerInv_bump (st : RouterState) (h : RouterInv st) :
    RouterInv { st with nextId := st.nextId + 1 } := by
  obtain ⟨h1, h2, h3, h4⟩ := h
  exact ⟨h1, h2, fun p hp => ⟨Nat.lt_succ_of_lt (h3 p hp).1, (h3 p hp).2⟩, h4⟩

theorem routerInv_addEvents (st : RouterState) (h : RouterInv st) :
    RouterInv { st with
      ws := some st.nextId
      nextId := st.nextId + 1
      loops := st.loops ++ [(st.nextId, ConnClass.events)] } := by
  obtain ⟨h1, h2, h3, h4⟩ := h
  refine ⟨?_, ?_, ?_, ?_⟩
  · intro s hs
    simp only [List.mem_append, List.mem_singleton] at hs
    rcases hs with hs | hs
    · exact h1 s hs
    · exact absurd (congrArg Prod.snd hs) (by simp)
  · intro s hs
    exact List.mem_append_left _ (h2 s hs)
  · intro p hp
    simp only [List.mem_append, List.mem_singleton] at hp
    rcases hp with hp | hp
    · exact ⟨Nat.lt_succ_of_lt (h3 p hp).1, (h3 p hp).2⟩
    · subst hp; exact ⟨Nat.lt_succ_self _, by simp⟩
  · refine List.pairwise_append.mpr ⟨h4, List.pairwise_singleton _ _, ?_⟩
    intro p hp q hq
    simp only [List.mem_singleton] at hq
    subst hq
    exact Nat.ne_of_lt (h3 p hp).1

theorem routerInv_addData (st : RouterState) (hd : st.dataWs = none)
    (h : RouterInv st) :
    RouterInv { st with
      ws := some st.nextId
      dataWs := some st.nextId
      nextId := st.nextId + 1
      loops := st.loops ++ [(st.nextId, ConnClass.data)] } := by
  obtain ⟨h1, h2, h3, h4⟩ := h
  refine ⟨?_, ?_, ?_, ?_⟩
  · intro s hs
    simp only [List.mem_append, List.mem_singleton] at hs
    rcases hs with hs | hs
    · exact absurd (h1 s hs) (by simp [hd])
    · injection hs with hfst hsnd
      rw [hfst]
  · intro s hs
    simp only [Option.some_inj] at hs
    subst hs
    exact List.mem_append_right _ (by simp)
  · intro p hp
    simp only [List.mem_append, List.mem_singleton] at hp
    rcases hp with hp | hp
    · exact ⟨Nat.lt_succ_of_lt (h3 p hp).1, (h3 p hp).2⟩
    · subst hp; exact ⟨Nat.lt_succ_self _, by simp⟩
  · refine List.pairwise_append.mpr ⟨h4, List.pairwise_singleton _ _, ?_⟩
    intro p hp q hq
    simp only [List.mem_singleton] at hq
    subst hq
    exact Nat.ne_of_lt (h3 p hp).1

theorem routerInv_addNats (st : RouterState) (h : RouterInv st) :
    RouterInv { st with polygon := some st.nextId, nextId := st.nextId + 1 } := by
  obtain ⟨h1, h2, h3, h4⟩ := h
  exact ⟨h1, h2, fun p hp => ⟨Nat.lt_succ_of_lt (h3 p hp).1, (h3 p hp).2⟩, h4⟩

theorem routerInv_ensureWs (cfg : Config) (env : Env) (st : RouterState)
    (h : RouterInv st) : RouterInv (StreamConn.ensureWs cfg env st).state := by
  cases hw : st.ws with
  | some s => rw [ensureWs_state_some cfg env st s hw]; exact h
  | none =>
      cases hc : StreamConn.authCheck (env.authResponse st.nextId) with
      | error e => rw [ensureWs_state_error cfg env st e hw hc]; exact routerInv_bump st h
      | ok u => rw [ensureWs_state_ok cfg env st u hw hc]; exact routerInv_addEvents st h

theorem routerInv_ensureDataWs (cfg : Config) (env : Env) (st : RouterState)
    (h : RouterInv st) : RouterInv (StreamConn.ensureDataWs cfg env st).state := by
  cases hd : st.dataWs with
  | some s => rw [ensureDataWs_state_some cfg env st s hd]; exact h
  | none =>
      cases hc : StreamConn.authCheck (env.authResponse st.nextId) with
      | error e => rw [ensureDataWs_state_error cfg env st e hd hc]; exact routerInv_bump st h
      | ok u => rw [ensureDataWs_state_ok cfg env st u hd hc]; exact routerInv_addData st hd h

theorem routerInv_ensureNats (cfg : Config) (st : RouterState)
    (h : RouterInv st) : RouterInv (StreamConn.ensureNats cfg st).state := by
  rcases ensureNats_state cfg st with hs | hs <;> rw [hs]
  · exact h
  · exact routerInv_addNats st h

theorem routerInv_cleanup (sock : Nat) (st : RouterState) (h : RouterInv st) :
    RouterInv (StreamConn.consumeMsgCleanup sock st).1 := by
  obtain ⟨h1, h2, h3, h4⟩ := h
  unfold StreamConn.consumeMsgCleanup
  by_cases hdw : st.dataWs = some sock
  · simp only [hdw, if_pos]
    refine ⟨?_, ?_, ?_, ?_⟩
    · intro s hs
      simp only [List.mem_filter] at hs
      have hds := h1 s hs.1
      rw [hdw] at hds
      have : s = sock := by injection hds.symm
      rw [this] at hs
      simp at hs
    · intro s hs
      simp at hs
    · intro p hp
      simp only [List.mem_filter] at hp
      exact h3 p hp.1
    · exact h4.sublist (List.filter_sublist _)
  · simp only [hdw, if_neg, if_false]
    refine ⟨?_, ?_, ?_, ?_⟩
    · intro s hs
      simp only [List.mem_filter] at hs
      exact h1 s hs.1
    · intro s hs
      have hmem := h2 s hs
      have hne : s ≠ sock := by
        intro hh
        rw [hh] at hs
        exact hdw hs
      simp only [List.mem_filter]
      exact ⟨hmem, by simp [hne]⟩
    · intro p hp
      simp only [List.mem_filter] at hp
      exact h3 p hp.1
    · exact h4.sublist (List.filter_sublist _)

theorem routerInv_andThen (o : Outcome) (f : RouterState → Outcome)
    (ho : RouterInv o.state) (hf : ∀ s, RouterInv s → RouterInv (f s).state) :
    RouterInv (o.andThen f).state := by
  unfold Outcome.andThen
  cases hr : o.result with
  | error e => exact ho
  | ok u => exact hf o.state ho

theorem routerInv_stepEvents (cfg : Config) (env : Env) (channels : List String)
    (st : RouterState) (h : RouterInv st) :
    RouterInv (StreamConn.stepEvents cfg env channels st).state := by
  unfold StreamConn.stepEvents
  by_cases he : channels.isEmpty
  · simp only [he, if_pos]; exact h
  · simp only [he, if_neg, if_false]
    refine routerInv_andThen _ _ (routerInv_ensureWs cfg env st h) ?_
    intro s hs
    rw [sendOnWs_state]
    exact hs

theorem routerInv_stepData (cfg : Config) (env : Env) (channels : List String)
    (st : RouterState) (h : RouterInv st) :
    RouterInv (StreamConn.stepData cfg env channels st).state := by
  unfold StreamConn.stepData
  by_cases he : channels.isEmpty
  · simp only [he, if_pos]; exact h
  · simp only [he, if_neg, if_false]
    refine routerInv_andThen _ _ (routerInv_ensureDataWs cfg env st h) ?_
    intro s hs
    rw [sendOnDataWs_state]
    exact hs

theorem routerInv_stepNats (cfg : Config) (channels : List String)
    (st : RouterState) (h : RouterInv st) :
    RouterInv (StreamConn.stepNats cfg channels st).state := by
  unfold StreamConn.stepNats
  by_cases he : channels.isEmpty
  · simp only [he, if_pos]; exact h
  · simp only [he, if_neg, if_false]
    refine routerInv_andThen _ _ (routerInv_ensureNats cfg st h) ?_
    intro s hs
    rw [sendNatsSubscribe_state]
    exact hs

theorem routerInv_subscribe (cfg : Config) (env : Env) (channels : List String)
    (st : RouterState) (h : RouterInv st) :
    RouterInv (StreamConn.subscribe cfg env channels st).state := by
  unfold StreamConn.subscribe
  refine routerInv_andThen _ _ ?_ ?_
  · exact routerInv_andThen _ _ (routerInv_stepEvents cfg env _ st h) fun s hs =>
      routerInv_stepData cfg env _ s hs
  · intro s hs
    exact routerInv_stepNats cfg _ s hs

theorem routerInv_stepCmd (cfg : Config) (env : Env) (st : RouterState)
    (c : Cmd) (h : RouterInv st) : RouterInv (stepCmd cfg env st c) := by
  cases c with
  | ensureWs => exact routerInv_ensureWs cfg env st h
  | ensureDataWs => exact routerInv_ensureDataWs cfg env st h
  | ensureNats => exact routerInv_ensureNats cfg st h
  | subscribe channels => exact routerInv_subscribe cfg env channels st h
  | loopEnd sock =>
      unfold stepCmd
      by_cases hl : st.loops.any (fun p => p.1 == sock) = true
      · simp only [hl, if_pos]
        exact routerInv_cleanup sock st h
      · simp only [hl, if_neg, if_false]
        exact h
  | closeAll => exact h

theorem routerInv_runCmds (cfg : Config) (env : Env) (cmds : List Cmd)
    (st : RouterState) (h : RouterInv st) : RouterInv (runCmds cfg env cmds st) := by
  induction cmds generalizing st with
  | nil => exact h
  | cons c rest ih => exact ih (stepCmd cfg env st c) (routerInv_stepCmd cfg env st c h)

theorem loops_class_unique {l : List (Nat × ConnClass)} {s : Nat}
    {k1 k2 : ConnClass} (hp : l.Pairwise (fun p q => p.1 ≠ q.1))
    (m1 : (s, k1) ∈ l) (m2 : (s, k2) ∈ l) : k1 = k2 := by
  induction l with
  | nil => cases m1
  | cons a t ih =>
      rcases List.pairwise_cons.mp hp with ⟨ha, ht⟩
      rcases List.mem_cons.mp m1 with e1 | m1t
      · rcases List.mem_cons.mp m2 with e2 | m2t
        · rw [← e1] at e2; injection e2 with hfst hsnd; exact hsnd.symm
        · exact absurd (congrArg Prod.fst e1).symm (ha (s, k2) m2t)
      · rcases List.mem_cons.mp m2 with e2 | m2t
        · exact absurd (congrArg Prod.fst e2).symm (ha (s, k1) m1t)
        · exact ih ht m1t m2t

theorem ensureWs_trace_head (cfg : Config) (env : Env) (st : RouterState)
    (hw : st.ws = none) :
    (StreamConn.ensureWs cfg env st).trace.head? =
      some (Op.wsConnect cfg.endpoint st.nextId) := by
  cases hc : StreamConn.authCheck (env.authResponse st.nextId) with
  | error e => simp [StreamConn.ensureWs, StreamConn.connect, hw, hc]
  | ok u => simp [StreamConn.ensureWs, StreamConn.connect, hw, hc]

theorem ensureDataWs_trace_head (cfg : Config) (env : Env) (st : RouterState)
    (hd : st.dataWs = none) :
    (StreamConn.ensureDataWs cfg env st).trace.head? =
      some (Op.wsConnect cfg.dataEndpoint st.nextId) := by
  cases hc : StreamConn.authCheck (env.authResponse st.nextId) with
  | error e => simp [StreamConn.ensureDataWs, StreamConn.connect, hd, hc]
  | ok u => simp [StreamConn.ensureDataWs, StreamConn.connect, hd, hc]

theorem cleanup_state_of_data (sock : Nat) (st : RouterState)
    (hdw : st.dataWs = some sock) :
    (StreamConn.consumeMsgCleanup sock st).1 =
      { st with
        dataWs := none
        loops := st.loops.filter (fun p => p.1 != sock) } := by
  unfold StreamConn.consumeMsgCleanup
  simp [hdw]

theorem cleanup_state_of_other (sock : Nat) (st : RouterState)
    (hdw : ¬ st.dataWs = some sock) :
    (StreamConn.consumeMsgCleanup sock st).1 =
      { st with
        ws := none
        loops := st.loops.filter (fun p => p.1 != sock) } := by
  unfold StreamConn.consumeMsgCleanup
  simp [hdw]

/-- C3: in every reachable router state, when the read loop running on a
socket terminates (any receive failure, decode failure or stream end
reaches the same cleanup), the cleanup closes that socket and leaves the
stored handle of the class that created the socket cleared, so the next
ensure call for that same class starts with a fresh transport connect.
Read loops exist only for the two socket classes. -/
theorem readLoop_termination_clears_class_handle (cfg : Config) (env : Env)
    (cmds : List Cmd) (st : RouterState) (sock : Nat) (k : ConnClass)
    (hst : st = runCmds cfg env cmds initState)
    (hmem : (sock, k) ∈ st.loops) :
    (StreamConn.consumeMsgCleanup sock st).2 = [Op.close sock] ∧
    k ≠ ConnClass.feed ∧
    (k = ConnClass.events →
        (StreamConn.consumeMsgCleanup sock st).1.ws = none ∧
        (StreamConn.ensureWs cfg env
            (StreamConn.consumeMsgCleanup sock st).1).trace.head? =
          some (Op.wsConnect cfg.endpoint
            (StreamConn.consumeMsgCleanup sock st).1.nextId)) ∧
    (k = ConnClass.data →
        (StreamConn.consumeMsgCleanup sock st).1.dataWs = none ∧
        (StreamConn.ensureDataWs cfg env
            (StreamConn.consumeMsgCleanup sock st).1).trace.head? =
          some (Op.wsConnect cfg.dataEndpoint
            (StreamConn.consumeMsgCleanup sock st).1.nextId)) := by
  have hinv : RouterInv st := by
    rw [hst]
    exact routerInv_runCmds cfg env cmds initState routerInv_init
  obtain ⟨h1, h2, h3, h4⟩ := hinv
  have htr : (StreamConn.consumeMsgCleanup sock st).2 = [Op.close sock] := by
    unfold StreamConn.consumeMsgCleanup
    by_cases hdw : st.dataWs = some sock <;> simp [hdw]
  refine ⟨htr, (h3 (sock, k) hmem).2, ?_, ?_⟩
  · intro hk
    subst hk
    have hne : ¬ st.dataWs = some sock := by
      intro hdw
      exact ConnClass.noConfusion (loops_class_unique h4 hmem (h2 sock hdw))
    rw [cleanup_state_of_other sock st hne]
    exact ⟨rfl, ensureWs_trace_head cfg env _ rfl⟩
  · intro hk
    subst hk
    have hdw : st.dataWs = some sock := h1 sock hmem
    rw [cleanup_state_of_data sock st hdw]
    exact ⟨rfl, ensureDataWs_trace_head cfg env _ rfl⟩

/-- Witness for C3: after one subscribe reaching both socket classes, the
data-class read loop on socket 1 terminates: the cleanup closes socket 1,
clears the data handle, and the next data ensure call starts with a fresh
transport connect to the data endpoint. -/
theorem readLoop_termination_clears_class_handle_witness :
    stW = runCmds cfgEx envOk cmdsW initState ∧
    (1, ConnClass.data) ∈ stW.loops ∧
    ((StreamConn.consumeMsgCleanup 1 stW).2 = [Op.close 1] ∧
     ConnClass.data ≠ ConnClass.feed ∧
     (ConnClass.data = ConnClass.events →
        (StreamConn.consumeMsgCleanup 1 stW).1.ws = none ∧
        (StreamConn.ensureWs cfgEx envOk
            (StreamConn.consumeMsgCleanup 1 stW).1).trace.head? =
          some (Op.wsConnect cfgEx.endpoint
            (StreamConn.consumeMsgCleanup 1 stW).1.nextId)) ∧
     (ConnClass.data = ConnClass.data →
        (StreamConn.consumeMsgCleanup 1 stW).1.dataWs = none ∧
        (StreamConn.ensureDataWs cfgEx envOk
            (StreamConn.consumeMsgCleanup 1 stW).1).trace.head? =
          some (Op.wsConnect cfgEx.dataEndpoint
            (StreamConn.consumeMsgCleanup 1 stW).1.nextId))) := by
  refine ⟨by decide, by decide, ?_⟩
  exact readLoop_termination_clears_class_handle cfgEx envOk cmdsW stW 1
    ConnClass.data (by decide) (by decide)
